import Mathlib

/-!
# Verification of the SCT-checking core of the `sct` package

Shallow embedding of `sct.go`.  The package examines Signed Certificate
Timestamps (SCTs) attached to a TLS connection: SCTs delivered in the
handshake, SCTs embedded in the leaf certificate, and (in a separate,
uncalled helper) SCTs from an OCSP response.  External collaborators
(SCT deserialization, registry lookup, signature verification, inclusion
proof checking, current time) are modelled as an oracle environment
`Env`; the control flow of the checker itself is translated function by
function from the source.

Array indexing into the certificate chain (`chain[0]`, `chain[1]`) is
modelled with `List.get?`, an out-of-bounds access (a Go panic)
surfacing as `none` of the surrounding `Option`.
-/

namespace Sct

/-- Raw SCT bytes as received from a wire source (`ctx509.SerializedSCT.Val`). -/
abbrev SerializedSCT := List Nat

/-- Decoded Signed Certificate Timestamp (`ct.SignedCertificateTimestamp`):
the declared log identifier (`LogID.KeyID`), the timestamp in milliseconds
since the epoch, and the signature blob. -/
structure SCT where
  logID : List Nat
  timestamp : Nat
  sig : List Nat
  deriving DecidableEq

/-- A CT log as exposed by the loaded log list (`loglist2.Log`): the hash of
its public key, its maximum merge delay in milliseconds, and a description. -/
structure Log where
  keyID : List Nat
  mmd : Nat
  description : String
  deriving DecidableEq

/-- Per-log verification context (`ctutil.LogInfo`). -/
structure LogInfo where
  log : Log
  mmd : Nat
  deriving DecidableEq

/-- Modelled from the spec: `newLogInfoFromLog` is code of this repository
that is not under `src/` (only its caller `checkOneSCT` is).  Per the spec,
the log-list data source exposes, per log, its identifier, public key,
maximum merge delay and description, and the per-log verifier carries the
log's MMD; the spec gives it no failure mode, so it is modelled total. -/
def newLogInfoFromLog (l : Log) : LogInfo :=
  { log := l, mmd := l.mmd }

/-- A parsed certificate (`ctx509.Certificate`), reduced to the fields the
checker reads: raw DER bytes, the pre-certificate TBS derivative (embedded
SCT extension stripped), the SHA-256 hash of the public key (hashing is
external crypto, so the hash is carried as a field), and the embedded SCT
list (`SCTList.SCTList`). -/
structure Cert where
  der : List Nat
  tbs : List Nat
  pubKeyHash : List Nat
  sctList : List SerializedSCT
  deriving DecidableEq

/-- The fields of `tls.ConnectionState` the checker reads. -/
structure ConnectionState where
  peerCertificates : List Cert
  signedCertificateTimestamps : List SerializedSCT
  ocspResponse : List Nat
  deriving DecidableEq

/-- The distinct failure reasons (Go `error` values / messages) produced by
the checker.  One constructor per distinct message in the source:
`noSCTsFound` is the initial `lastError` "no Signed Certificate Timestamps
found"; `noValidSCT` is the shared "no valid SCT in SSL handshake" message
returned by all three per-source loops; `leafBuildFailure` stands for any
error propagated from the Merkle-leaf builders. -/
inductive Reason where
  | noConnectionState
  | noPeerCertificates
  | noSCTsFound
  | noSCTsInHandshake
  | noSCTsInLeafCert
  | noIssuerInChain
  | leafBuildFailure
  | noValidSCT
  | malformedSCT
  | unknownLog
  | signatureMismatch
  | inclusionFailedStale
  deriving DecidableEq

/-- The canonical Merkle tree leaf (`ct.MerkleTreeLeaf`), the structure a
log's signature covers: version, signature-type constant, timestamp,
entry type, the signed entry bytes, and the SCT extension bytes. -/
structure MerkleTreeLeaf where
  version : Nat
  leafType : Nat
  timestamp : Nat
  entryType : Nat
  signedEntry : List Nat
  extensionBytes : List Nat
  deriving DecidableEq

/-- Oracle environment for the external collaborators used by
`checkOneSCT`: SCT deserialization (`ctx509util.ExtractSCT`), registry
lookup (`loglist2.LogList.FindLogByKeyHash`), signature verification
(`LogInfo.VerifySCTSignature`), inclusion verification
(`LogInfo.VerifyInclusion`, `false` meaning no proof obtainable or proof
check failed), and the current time in milliseconds (`time.Since`). -/
structure Env where
  extractSCT : SerializedSCT → Option SCT
  findLogByKeyHash : List Nat → Option Log
  verifySCTSignature : Log → SCT → MerkleTreeLeaf → Bool
  verifyInclusion : Log → MerkleTreeLeaf → Nat → Bool
  now : Nat

/-- Big-endian byte encodings used by the leaf serialization. -/
def u8 (n : Nat) : List Nat := [n % 256]

def u16 (n : Nat) : List Nat := [n / 256 % 256, n % 256]

def u24 (n : Nat) : List Nat := [n / 65536 % 256, n / 256 % 256, n % 256]

def u64 (n : Nat) : List Nat :=
  [n / 2 ^ 56 % 256, n / 2 ^ 48 % 256, n / 2 ^ 40 % 256, n / 2 ^ 32 % 256,
   n / 2 ^ 24 % 256, n / 2 ^ 16 % 256, n / 2 ^ 8 % 256, n % 256]

/-- Modelled from the spec: the byte serialization of a Merkle tree leaf
lives in the external `certificate-transparency-go` library, not under
`src/`.  Per the spec the layout is fixed: 1-byte version, 1-byte
signature-type constant, 8-byte timestamp, 2-byte entry type, the signed
entry bytes length-prefixed, then the extension bytes length-prefixed. -/
def leafBytes (l : MerkleTreeLeaf) : List Nat :=
  u8 l.version ++ u8 l.leafType ++ u64 l.timestamp ++ u16 l.entryType ++
    u24 l.signedEntry.length ++ l.signedEntry ++
    u16 l.extensionBytes.length ++ l.extensionBytes

/-- The leaf built for an ordinary X.509 entry: the signed entry is the
certificate's DER bytes. -/
def xLeaf (leaf : Cert) (timestamp : Nat) : MerkleTreeLeaf :=
  { version := 0, leafType := 0, timestamp := timestamp,
    entryType := 0, signedEntry := leaf.der, extensionBytes := [] }

/-- Modelled from the spec: `ct.MerkleTreeLeafFromChain` is in the external
`certificate-transparency-go` library, not under `src/`.  Per the spec,
`buildFromChain` uses the leaf certificate's DER bytes as presented in the
chain as the signed entry, and fails (ChainBuildFailure) when the chain is
too short for the requested entry type. -/
def MerkleTreeLeafFromChain (chain : List Cert) (timestamp : Nat) :
    Except Reason MerkleTreeLeaf :=
  match chain with
  | [] => .error .leafBuildFailure
  | leaf :: _ => .ok (xLeaf leaf timestamp)

/-- The leaf built for a pre-certificate entry: the signed entry is the
hash of the issuer's public key followed by the leaf's TBS derivative. -/
def embLeaf (leaf issuer : Cert) (timestamp : Nat) : MerkleTreeLeaf :=
  { version := 0, leafType := 0, timestamp := timestamp,
    entryType := 1, signedEntry := issuer.pubKeyHash ++ leaf.tbs,
    extensionBytes := [] }

/-- Modelled from the spec: `ct.MerkleTreeLeafForEmbeddedSCT` is in the
external `certificate-transparency-go` library, not under `src/`.  Per the
spec, the signed entry for an embedded SCT is the pre-certificate derived
from the leaf (SCT extension stripped) plus the hash of the issuer's public
key; it needs both the leaf and the issuer certificate. -/
def MerkleTreeLeafForEmbeddedSCT (chain : List Cert) (timestamp : Nat) :
    Except Reason MerkleTreeLeaf :=
  match chain with
  | leaf :: issuer :: _ => .ok (embLeaf leaf issuer timestamp)
  | _ => .error .leafBuildFailure

/-- Modelled from the spec: `buildCertificateChain` is code of this
repository that is not under `src/` (only its caller is).  Per the spec the
chain handed to the evidence checker is the ordered list of presented
certificates, leaf first; the spec gives the conversion no failure mode, so
it is modelled as the presented list itself. -/
def buildCertificateChain (peerCertificates : List Cert) : List Cert :=
  peerCertificates

/-- `checker.checkOneSCT` (sct.go:166-199): deserialize, look up the log,
verify the signature, then attempt inclusion; on inclusion failure succeed
anyway when the SCT is younger than the log's MMD (`age := time.Since(ts)`,
fail iff `age >= logInfo.MMD`).  The age is computed over `Int` because
Go's `time.Duration` is signed. -/
def checkOneSCT (env : Env) (x509SCT : SerializedSCT)
    (merkleLeaf : MerkleTreeLeaf) : Except Reason Unit :=
  match env.extractSCT x509SCT with
  | none => .error .malformedSCT
  | some sct =>
      match env.findLogByKeyHash sct.logID with
      | none => .error .unknownLog
      | some ctLog =>
          let logInfo := newLogInfoFromLog ctLog
          if env.verifySCTSignature ctLog sct merkleLeaf then
            if env.verifyInclusion ctLog merkleLeaf sct.timestamp then
              .ok ()
            else
              let age : Int := (env.now : Int) - (sct.timestamp : Int)
              if (logInfo.mmd : Int) ≤ age then
                .error .inclusionFailedStale
              else
                .ok ()
          else
            .error .signatureMismatch

/-- The per-source loop shared by the three source checkers: walk the SCT
list in order and return on the first SCT `checkOneSCT` accepts. -/
def firstValidSCT (env : Env) (merkleLeaf : MerkleTreeLeaf) :
    List SerializedSCT → Bool
  | [] => false
  | s :: rest =>
      match checkOneSCT env s merkleLeaf with
      | .ok _ => true
      | .error _ => firstValidSCT env merkleLeaf rest

/-- `checker.checkTLSSCTs` (sct.go:96-116): empty-list check, build the
X.509 leaf from the chain, then try each handshake SCT in order. -/
def checkTLSSCTs (env : Env) (scts : List SerializedSCT)
    (chain : List Cert) : Except Reason Unit :=
  match scts with
  | [] => .error .noSCTsInHandshake
  | _ :: _ =>
      match MerkleTreeLeafFromChain chain 0 with
      | .error e => .error e
      | .ok merkleLeaf =>
          if firstValidSCT env merkleLeaf scts then .ok ()
          else .error .noValidSCT

/-- `checker.checkCertSCTs` (sct.go:119-145): read `chain[0]` (before any
length check), require a non-empty embedded SCT list, require an issuer at
`chain[1]` (after the `len(chain) < 2` guard), build the pre-certificate
leaf, then try each embedded SCT in order.  `none` models an out-of-bounds
chain access (Go panic). -/
def checkCertSCTs (env : Env) (chain : List Cert) :
    Option (Except Reason Unit) :=
  match chain.get? 0 with
  | none => none
  | some leaf =>
      match leaf.sctList with
      | [] => some (.error .noSCTsInLeafCert)
      | _ :: _ =>
          if chain.length < 2 then
            some (.error .noIssuerInChain)
          else
            match chain.get? 1 with
            | none => none
            | some issuer =>
                match MerkleTreeLeafForEmbeddedSCT [leaf, issuer] 0 with
                | .error e => some (.error e)
                | .ok merkleLeaf =>
                    if firstValidSCT env merkleLeaf leaf.sctList then
                      some (.ok ())
                    else some (.error .noValidSCT)

/-- `checker.checkOcspSCTs` (sct.go:148-164): like the handshake source but
with no empty-list check.  Defined in the source yet never called from
`checkConnectionState` (the OCSP fallback there is commented out). -/
def checkOcspSCTs (env : Env) (scts : List SerializedSCT)
    (chain : List Cert) : Except Reason Unit :=
  match MerkleTreeLeafFromChain chain 0 with
  | .error e => .error e
  | .ok merkleLeaf =>
      if firstValidSCT env merkleLeaf scts then .ok ()
      else .error .noValidSCT

/-- `checker.checkConnectionState` (sct.go:47-93): nil-state and
empty-peer-certificate preconditions, then the handshake source, then the
embedded source.  `lastError` starts as "no Signed Certificate Timestamps
found" (`Reason.noSCTsFound`) and is overwritten by each failing source's
error; since both source checkers return a non-nil error whenever they do
not succeed, the value returned on overall failure is the embedded source's
error.  The OCSP block (sct.go:77-91) is commented out in the source, so no
third source is consulted.  The argument is `Option ConnectionState` to
model the nil pointer; the result is `none` when a chain access would have
panicked. -/
def checkConnectionState (env : Env) (state : Option ConnectionState) :
    Option (Except Reason Unit) :=
  match state with
  | none => some (.error .noConnectionState)
  | some st =>
      match st.peerCertificates with
      | [] => some (.error .noPeerCertificates)
      | _ :: _ =>
          let chain := buildCertificateChain st.peerCertificates
          match checkTLSSCTs env st.signedCertificateTimestamps chain with
          | .ok _ => some (.ok ())
          | .error _ =>
              match checkCertSCTs env chain with
              | none => none
              | some (.ok _) => some (.ok ())
              | some (.error e2) => some (.error e2)

/-- `checker.VerifyTLSSCTs` (sct.go:203-217): boolean variant for one
handshake-style SCT. -/
def VerifyTLSSCTs (env : Env) (sct : SerializedSCT) (chain : List Cert) :
    Bool :=
  match MerkleTreeLeafFromChain chain 0 with
  | .error _ => false
  | .ok merkleLeaf =>
      match checkOneSCT env sct merkleLeaf with
      | .ok _ => true
      | .error _ => false

/-- `checker.VerifyCertSCTs` (sct.go:220-243): boolean variant for one
embedded-style SCT; it still reads `chain[0]` unguarded and still requires
the leaf's own embedded SCT list to be non-empty. -/
def VerifyCertSCTs (env : Env) (sct : SerializedSCT) (chain : List Cert) :
    Option Bool :=
  match chain.get? 0 with
  | none => none
  | some leaf =>
      match leaf.sctList with
      | [] => some false
      | _ :: _ =>
          if chain.length < 2 then
            some false
          else
            match chain.get? 1 with
            | none => none
            | some issuer =>
                match MerkleTreeLeafForEmbeddedSCT [leaf, issuer] 0 with
                | .error _ => some false
                | .ok merkleLeaf =>
                    match checkOneSCT env sct merkleLeaf with
                    | .ok _ => some true
                    | .error _ => some false

/-- `checker.VerifyOcspSCTs` (sct.go:246-259): boolean variant for one
OCSP-style SCT; identical to `VerifyTLSSCTs`. -/
def VerifyOcspSCTs (env : Env) (sct : SerializedSCT) (chain : List Cert) :
    Bool :=
  match MerkleTreeLeafFromChain chain 0 with
  | .error _ => false
  | .ok merkleLeaf =>
      match checkOneSCT env sct merkleLeaf with
      | .ok _ => true
      | .error _ => false

/-! ## Concrete instances used by witnesses and counterexamples -/

/-- An environment in which every oracle fails. -/
def env0 : Env :=
  { extractSCT := fun _ => none
    findLogByKeyHash := fun _ => none
    verifySCTSignature := fun _ _ _ => false
    verifyInclusion := fun _ _ _ => false
    now := 0 }

/-- A connection state with no peer certificates. -/
def stEmpty : ConnectionState :=
  { peerCertificates := [], signedCertificateTimestamps := [], ocspResponse := [] }

/-- A certificate carrying no embedded SCTs. -/
def certNoSCTs : Cert :=
  { der := [1], tbs := [2], pubKeyHash := [3], sctList := [] }

/-- A decoded SCT with timestamp 0 naming log `[1]`. -/
def sctT0 : SCT := { logID := [1], timestamp := 0, sig := [7] }

/-- A log with a 24-hour maximum merge delay (in milliseconds). -/
def logMMD24h : Log := { keyID := [1], mmd := 86400000, description := "log-a" }

/-- An arbitrary Merkle tree leaf. -/
def leafA : MerkleTreeLeaf :=
  { version := 0, leafType := 0, timestamp := 0, entryType := 0,
    signedEntry := [], extensionBytes := [] }

/-- Environment where deserialization and lookup succeed (yielding `sctT0`
and `logMMD24h`), signatures verify, inclusion fails, evaluated 1 hour
after the SCT's timestamp. -/
def envFresh : Env :=
  { extractSCT := fun _ => some sctT0
    findLogByKeyHash := fun _ => some logMMD24h
    verifySCTSignature := fun _ _ _ => true
    verifyInclusion := fun _ _ _ => false
    now := 3600000 }

/-- Same as `envFresh` but evaluated 25 hours after the SCT's timestamp. -/
def envStale : Env := { envFresh with now := 90000000 }

/-- Environment whose registry is empty but whose deserializer succeeds. -/
def envNoLog : Env := { env0 with extractSCT := fun _ => some sctT0 }

/-- Environment where deserialization and lookup succeed but the signature
does not verify. -/
def envBadSig : Env :=
  { envFresh with verifySCTSignature := fun _ _ _ => false }

/-- Environment where all checks pass and inclusion verifies. -/
def envAllOk : Env :=
  { envFresh with verifyInclusion := fun _ _ _ => true }

/-- A decoded SCT naming the unknown log `[2]`. -/
def sctUnknown : SCT := { logID := [2], timestamp := 0, sig := [] }

/-- Environment where SCT bytes `[9]` decode to an SCT naming an unknown
log while every other blob decodes to `sctT0` (known log `[1]`), and both
signature and inclusion verification succeed. -/
def envW2 : Env :=
  { extractSCT := fun b => match b with | [9] => some sctUnknown | _ => some sctT0
    findLogByKeyHash := fun k => match k with | [1] => some logMMD24h | _ => none
    verifySCTSignature := fun _ _ _ => true
    verifyInclusion := fun _ _ _ => true
    now := 0 }

/-- A leaf certificate carrying one embedded SCT (bytes `[5]`). -/
def certWithSCT : Cert := { der := [1], tbs := [2], pubKeyHash := [3], sctList := [[5]] }

/-- An issuer certificate. -/
def issuerCert : Cert := { der := [4], tbs := [5], pubKeyHash := [6], sctList := [] }

/-- State whose handshake carries the unknown-log SCT `[9]` and whose leaf
certificate embeds the good SCT `[5]`, with an issuer present. -/
def stW2 : ConnectionState :=
  { peerCertificates := [certWithSCT, issuerCert],
    signedCertificateTimestamps := [[9]], ocspResponse := [] }

/-- State with no handshake SCTs, no embedded SCTs, and OCSP bytes
carrying the SCT `[5]`. -/
def stC2 : ConnectionState :=
  { peerCertificates := [certNoSCTs], signedCertificateTimestamps := [],
    ocspResponse := [5] }

/-- State with a single certificate that embeds an SCT, and no handshake
SCTs. -/
def stC3 : ConnectionState :=
  { peerCertificates := [certWithSCT], signedCertificateTimestamps := [],
    ocspResponse := [] }

/-- State in which every evidence source is empty. -/
def stC7 : ConnectionState :=
  { peerCertificates := [certNoSCTs], signedCertificateTimestamps := [],
    ocspResponse := [] }

/-- Environment where SCT bytes `[1]` fail to deserialize and every other
blob decodes to an SCT naming a log absent from the registry. -/
def envC4 : Env :=
  { extractSCT := fun b => match b with | [1] => none | _ => some sctUnknown
    findLogByKeyHash := fun _ => none
    verifySCTSignature := fun _ _ _ => false
    verifyInclusion := fun _ _ _ => false
    now := 0 }

/-- State whose handshake carries the two failing SCTs `[1]` and `[2]`. -/
def stC4 : ConnectionState :=
  { peerCertificates := [certNoSCTs], signedCertificateTimestamps := [[1], [2]],
    ocspResponse := [] }

/-- The X.509 Merkle leaf built from the chain `[certNoSCTs]`. -/
def LC4 : MerkleTreeLeaf :=
  { version := 0, leafType := 0, timestamp := 0, entryType := 0,
    signedEntry := [1], extensionBytes := [] }

/-! ## C1: the MMD freshness rule in `checkOneSCT` -/

/-- C1: when the SCT deserializes, its log is known, its signature verifies
and inclusion cannot be verified, `checkOneSCT` succeeds iff
`now - SCT.timestamp` is strictly below the log's maximum merge delay, and
otherwise fails with `inclusionFailedStale` (sct.go:187-198). -/
theorem checkOneSCT_mmd_freshness (env : Env) (s : SerializedSCT)
    (leaf : MerkleTreeLeaf) (sct : SCT) (log : Log)
    (h1 : env.extractSCT s = some sct)
    (h2 : env.findLogByKeyHash sct.logID = some log)
    (h3 : env.verifySCTSignature log sct leaf = true)
    (h4 : env.verifyInclusion log leaf sct.timestamp = false) :
    (checkOneSCT env s leaf = .ok () ↔
      (env.now : Int) - (sct.timestamp : Int) < (log.mmd : Int))
    ∧ ((log.mmd : Int) ≤ (env.now : Int) - (sct.timestamp : Int) →
        checkOneSCT env s leaf = .error .inclusionFailedStale) := by
  simp only [checkOneSCT, h1, h2, h3, h4, newLogInfoFromLog, if_true, if_false,
    Bool.false_eq_true, if_neg, ite_true, ite_false]
  constructor
  · by_cases hc : (log.mmd : Int) ≤ (env.now : Int) - (sct.timestamp : Int)
    · simp [hc]
    · simp [hc]
      omega
  · intro hc
    simp [hc]

/-- Witness for C1 at the spec's MMD-boundary example: MMD = 24h, SCT
timestamped at T = 0 with no retrievable inclusion proof; at T+1h the check
succeeds, at T+25h it fails with `inclusionFailedStale`. -/
theorem checkOneSCT_mmd_freshness_witness :
    checkOneSCT envFresh [0] leafA = .ok () ∧
    checkOneSCT envStale [0] leafA = .error .inclusionFailedStale :=
  ⟨(checkOneSCT_mmd_freshness envFresh [0] leafA sctT0 logMMD24h
      rfl rfl rfl rfl).1.mpr (by decide),
   (checkOneSCT_mmd_freshness envStale [0] leafA sctT0 logMMD24h
      rfl rfl rfl rfl).2 (by decide)⟩

/-! ## C5: missing preconditions are fatal, independent of all SCT input -/

/-- C5: a nil connection state fails with the no-connection-state reason,
and a state with an empty peer-certificate list fails with the
no-peer-certificates reason, for every oracle environment and every SCT
input (sct.go:48-54); no evidence source is consulted. -/
theorem checkConnectionState_preconditions (env : Env) (st : ConnectionState) :
    checkConnectionState env none = some (.error .noConnectionState)
    ∧ (st.peerCertificates = [] →
        checkConnectionState env (some st) = some (.error .noPeerCertificates)) := by
  refine ⟨rfl, fun h => ?_⟩
  simp [checkConnectionState, h]

/-- Witness for C5: the all-failing environment and an empty state. -/
theorem checkConnectionState_preconditions_witness :
    checkConnectionState env0 none = some (.error .noConnectionState)
    ∧ checkConnectionState env0 (some stEmpty) = some (.error .noPeerCertificates) :=
  ⟨(checkConnectionState_preconditions env0 stEmpty).1,
   (checkConnectionState_preconditions env0 stEmpty).2 rfl⟩

/-! ## C6: the fixed judgment order inside `checkOneSCT` -/

/-- C6: `checkOneSCT` fails with `malformedSCT` when deserialization fails,
else with `unknownLog` when the declared log is not in the registry, else
with `signatureMismatch` when the recomputed signature does not match — in
each of these cases for *every* inclusion oracle, i.e. inclusion is not
attempted — and succeeds outright once all three checks pass and inclusion
verifies (sct.go:166-199). -/
theorem checkOneSCT_judgment_order (env : Env) (s : SerializedSCT)
    (leaf : MerkleTreeLeaf) :
    (env.extractSCT s = none → ∀ g,
      checkOneSCT { env with verifyInclusion := g } s leaf = .error .malformedSCT)
    ∧ (∀ sct, env.extractSCT s = some sct →
        env.findLogByKeyHash sct.logID = none → ∀ g,
        checkOneSCT { env with verifyInclusion := g } s leaf = .error .unknownLog)
    ∧ (∀ sct log, env.extractSCT s = some sct →
        env.findLogByKeyHash sct.logID = some log →
        env.verifySCTSignature log sct leaf = false → ∀ g,
        checkOneSCT { env with verifyInclusion := g } s leaf = .error .signatureMismatch)
    ∧ (∀ sct log, env.extractSCT s = some sct →
        env.findLogByKeyHash sct.logID = some log →
        env.verifySCTSignature log sct leaf = true →
        env.verifyInclusion log leaf sct.timestamp = true →
        checkOneSCT env s leaf = .ok ()) := by
  refine ⟨fun h g => ?_, fun sct h1 h2 g => ?_, fun sct log h1 h2 h3 g => ?_,
    fun sct log h1 h2 h3 h4 => ?_⟩
  · simp [checkOneSCT, h]
  · simp [checkOneSCT, h1, h2]
  · simp [checkOneSCT, h1, h2, h3]
  · simp [checkOneSCT, h1, h2, h3, h4]

/-- Witness for C6: each of the four branches at a concrete input. -/
theorem checkOneSCT_judgment_order_witness :
    checkOneSCT env0 [0] leafA = .error .malformedSCT
    ∧ checkOneSCT envNoLog [0] leafA = .error .unknownLog
    ∧ checkOneSCT envBadSig [0] leafA = .error .signatureMismatch
    ∧ checkOneSCT envAllOk [0] leafA = .ok () :=
  ⟨(checkOneSCT_judgment_order env0 [0] leafA).1 rfl env0.verifyInclusion,
   (checkOneSCT_judgment_order envNoLog [0] leafA).2.1 sctT0 rfl rfl
     envNoLog.verifyInclusion,
   (checkOneSCT_judgment_order envBadSig [0] leafA).2.2.1 sctT0 logMMD24h rfl rfl
     rfl envBadSig.verifyInclusion,
   (checkOneSCT_judgment_order envAllOk [0] leafA).2.2.2 sctT0 logMMD24h rfl rfl
     rfl rfl⟩

/-! ## C10: chain indexing safety in the embedded-SCT path -/

/-- Helper: `checkCertSCTs` never performs an out-of-bounds chain access on
a non-empty chain. -/
theorem checkCertSCTs_isSome (env : Env) (chain : List Cert)
    (h : chain ≠ []) : (checkCertSCTs env chain).isSome = true := by
  match chain with
  | [] => exact absurd rfl h
  | c :: rest =>
    match rest with
    | [] =>
      cases hs : c.sctList <;> simp [checkCertSCTs, hs]
    | i :: rest' =>
      cases hs : c.sctList with
      | nil => simp [checkCertSCTs, hs]
      | cons a l =>
        simp only [checkCertSCTs, List.get?, hs]
        have hlen : ¬((c :: i :: rest').length < 2) := by
          simp [List.length]
        simp only [hlen, if_false, MerkleTreeLeafForEmbeddedSCT]
        cases firstValidSCT env (embLeaf c i 0) (a :: l) <;> simp

/-- Helper: `VerifyCertSCTs` never performs an out-of-bounds chain access
on a non-empty chain. -/
theorem VerifyCertSCTs_isSome (env : Env) (s : SerializedSCT)
    (chain : List Cert) (h : chain ≠ []) :
    (VerifyCertSCTs env s chain).isSome = true := by
  match chain with
  | [] => exact absurd rfl h
  | c :: rest =>
    match rest with
    | [] =>
      cases hs : c.sctList <;> simp [VerifyCertSCTs, hs]
    | i :: rest' =>
      cases hs : c.sctList with
      | nil => simp [VerifyCertSCTs, hs]
      | cons a l =>
        simp only [VerifyCertSCTs, List.get?, hs]
        have hlen : ¬((c :: i :: rest').length < 2) := by
          simp [List.length]
        simp only [hlen, if_false, MerkleTreeLeafForEmbeddedSCT]
        cases checkOneSCT env s (embLeaf c i 0) <;> simp

/-- C10: for every chain with at least one element, the embedded-SCT path
performs no out-of-bounds access — `chain[0]` is read before any length
check and `chain[1]` only behind the `len(chain) < 2` guard — while the
public `VerifyCertSCTs` does crash on an empty chain (so non-emptiness is a
necessary precondition), and the orchestrator's peer-certificate guard
makes `checkConnectionState` safe whenever peer certificates exist
(sct.go:119-129, 220-230, 52-56). -/
theorem certChain_access_safety (env : Env) (s : SerializedSCT)
    (chain : List Cert) (st : ConnectionState) :
    (chain ≠ [] →
      (checkCertSCTs env chain).isSome = true
      ∧ (VerifyCertSCTs env s chain).isSome = true)
    ∧ VerifyCertSCTs env s [] = none
    ∧ (st.peerCertificates ≠ [] → checkConnectionState env (some st) ≠ none) := by
  refine ⟨fun h => ⟨checkCertSCTs_isSome env chain h,
    VerifyCertSCTs_isSome env s chain h⟩, rfl, fun h => ?_⟩
  match hpc : st.peerCertificates with
  | [] => exact absurd hpc h
  | c :: rest =>
    simp only [checkConnectionState, hpc, buildCertificateChain]
    cases checkTLSSCTs env st.signedCertificateTimestamps (c :: rest) with
    | ok u => simp
    | error e =>
      have hsome := checkCertSCTs_isSome env (c :: rest) (by simp)
      cases hcc : checkCertSCTs env (c :: rest) with
      | none => rw [hcc] at hsome; simp at hsome
      | some r =>
        cases r with
        | ok u => simp [hcc]
        | error e2 => simp [hcc]

/-- Witness for C10 at a concrete one-element chain and state. -/
theorem certChain_access_safety_witness :
    ((checkCertSCTs env0 [certNoSCTs]).isSome = true
      ∧ (VerifyCertSCTs env0 [0] [certNoSCTs]).isSome = true)
    ∧ VerifyCertSCTs env0 [0] [] = none
    ∧ checkConnectionState env0
        (some { peerCertificates := [certNoSCTs],
                signedCertificateTimestamps := [], ocspResponse := [] }) ≠ none :=
  ⟨(certChain_access_safety env0 [0] [certNoSCTs]
      { peerCertificates := [certNoSCTs], signedCertificateTimestamps := [],
        ocspResponse := [] }).1 (by simp),
   (certChain_access_safety env0 [0] [certNoSCTs]
      { peerCertificates := [certNoSCTs], signedCertificateTimestamps := [],
        ocspResponse := [] }).2.1,
   (certChain_access_safety env0 [0] [certNoSCTs]
      { peerCertificates := [certNoSCTs], signedCertificateTimestamps := [],
        ocspResponse := [] }).2.2 (by simp)⟩

/-! ## Per-source success characterizations -/

/-- Helper: the per-source loop accepts iff some SCT in the list passes
`checkOneSCT`. -/
theorem firstValidSCT_eq_true_iff (env : Env) (L : MerkleTreeLeaf)
    (scts : List SerializedSCT) :
    firstValidSCT env L scts = true ↔
      ∃ s ∈ scts, checkOneSCT env s L = .ok () := by
  induction scts with
  | nil => simp [firstValidSCT]
  | cons a rest ih =>
    constructor
    · intro hl
      simp only [firstValidSCT] at hl
      cases h : checkOneSCT env a L with
      | ok u =>
        cases u
        exact ⟨a, by simp, h⟩
      | error e =>
        rw [h] at hl
        obtain ⟨s, hs, hok⟩ := ih.mp hl
        exact ⟨s, by simp [hs], hok⟩
    · rintro ⟨s, hs, hok⟩
      rcases List.mem_cons.mp hs with rfl | hs'
      · simp [firstValidSCT, hok]
      · simp only [firstValidSCT]
        cases h : checkOneSCT env a L with
        | ok u => rfl
        | error e => exact ih.mpr ⟨s, hs', hok⟩

/-- Helper: the handshake source succeeds iff its list is non-empty, the
X.509 leaf builds, and some SCT in the list passes. -/
theorem checkTLSSCTs_ok_iff (env : Env) (scts : List SerializedSCT)
    (chain : List Cert) :
    checkTLSSCTs env scts chain = .ok () ↔
      scts ≠ [] ∧ ∃ L, MerkleTreeLeafFromChain chain 0 = .ok L ∧
        ∃ s ∈ scts, checkOneSCT env s L = .ok () := by
  cases scts with
  | nil => simp [checkTLSSCTs]
  | cons a rest =>
    cases hb : MerkleTreeLeafFromChain chain 0 with
    | error e => simp [checkTLSSCTs, hb]
    | ok L =>
      by_cases hf : firstValidSCT env L (a :: rest) = true
      · simp only [checkTLSSCTs, hb, hf, if_true]
        exact iff_of_true (by simp)
          ⟨by simp, L, rfl, (firstValidSCT_eq_true_iff env L (a :: rest)).mp hf⟩
      · have hf' : firstValidSCT env L (a :: rest) = false := by
          cases hx : firstValidSCT env L (a :: rest)
          · rfl
          · exact absurd hx hf
        simp only [checkTLSSCTs, hb, hf', Bool.false_eq_true, if_false]
        refine iff_of_false (by simp) ?_
        rintro ⟨-, L', hL', s, hs, hok⟩
        obtain rfl : L = L' := Except.ok.inj hL'
        exact hf ((firstValidSCT_eq_true_iff env L (a :: rest)).mpr ⟨s, hs, hok⟩)

/-- Helper: the embedded source succeeds iff the chain has an issuer, the
leaf certificate embeds at least one SCT, the pre-certificate leaf builds,
and some embedded SCT passes. -/
theorem checkCertSCTs_ok_iff (env : Env) (chain : List Cert) :
    checkCertSCTs env chain = some (.ok ()) ↔
      ∃ c i rest, chain = c :: i :: rest ∧ c.sctList ≠ [] ∧
        ∃ L, MerkleTreeLeafForEmbeddedSCT [c, i] 0 = .ok L ∧
          ∃ s ∈ c.sctList, checkOneSCT env s L = .ok () := by
  match chain with
  | [] => simp [checkCertSCTs]
  | [c] =>
    cases hs : c.sctList with
    | nil => simp [checkCertSCTs, hs]
    | cons a l => simp [checkCertSCTs, hs]
  | c :: i :: rest =>
    cases hs : c.sctList with
    | nil =>
      simp [checkCertSCTs, hs]
    | cons a l =>
      have hlen : ¬((c :: i :: rest).length < 2) := by simp
      by_cases hf : firstValidSCT env (embLeaf c i 0) (a :: l) = true
      · simp only [checkCertSCTs, List.get?, hs, hlen, if_false,
          MerkleTreeLeafForEmbeddedSCT, hf, if_true]
        refine iff_of_true (by simp) ⟨c, i, rest, rfl, by simp [hs], _, rfl, ?_⟩
        rw [hs]
        exact (firstValidSCT_eq_true_iff env _ (a :: l)).mp hf
      · have hf' : firstValidSCT env (embLeaf c i 0) (a :: l) = false := by
          cases hx : firstValidSCT env (embLeaf c i 0) (a :: l)
          · rfl
          · exact absurd hx hf
        simp only [checkCertSCTs, List.get?, hs, hlen, if_false,
          MerkleTreeLeafForEmbeddedSCT, hf', Bool.false_eq_true]
        refine iff_of_false (by simp) ?_
        rintro ⟨c', i', rest', hch, -, L', hL', s, hmem, hok⟩
        injection hch with h1 h2
        injection h2 with h2 h3
        subst h1
        subst h2
        subst h3
        obtain rfl : L' = embLeaf c i 0 := (Except.ok.inj hL').symm
        rw [hs] at hmem
        exact hf ((firstValidSCT_eq_true_iff env _ (a :: l)).mpr ⟨s, hmem, hok⟩)

/-! ## C2: success iff some SCT passes, and the missing OCSP fallback -/

/-- Counterexample to C2 as stated: every SCT in the handshake and embedded
sources fails (both are empty) while an SCT supplied by the OCSP source
passes — `checkOcspSCTs`, the source's own checker, accepts it — yet the
connection check fails, because the OCSP fallback in
`checkConnectionState` is commented out (sct.go:77-91). -/
theorem ocsp_source_ignored_counterexample :
    checkOcspSCTs envAllOk [[5]] (buildCertificateChain stC2.peerCertificates) = .ok ()
    ∧ checkConnectionState envAllOk (some stC2) = some (.error .noSCTsInLeafCert) :=
  ⟨rfl, rfl⟩

/-- C2 amended: for a non-empty certificate chain, the connection check
succeeds iff at least one SCT in the handshake source or in the embedded
source passes `checkOneSCT` against that source's leaf (with the source's
own preconditions); the OCSP source is never consulted.  Earlier failing
SCTs or sources never prevent a later SCT or source from succeeding. -/
theorem checkConnectionState_success_iff (env : Env) (st : ConnectionState)
    (h : st.peerCertificates ≠ []) :
    checkConnectionState env (some st) = some (.ok ()) ↔
      (st.signedCertificateTimestamps ≠ [] ∧
        ∃ L, MerkleTreeLeafFromChain (buildCertificateChain st.peerCertificates) 0 = .ok L ∧
          ∃ s ∈ st.signedCertificateTimestamps, checkOneSCT env s L = .ok ())
      ∨ (∃ c i rest, buildCertificateChain st.peerCertificates = c :: i :: rest ∧
          c.sctList ≠ [] ∧
          ∃ L, MerkleTreeLeafForEmbeddedSCT [c, i] 0 = .ok L ∧
            ∃ s ∈ c.sctList, checkOneSCT env s L = .ok ()) := by
  have htls := checkTLSSCTs_ok_iff env st.signedCertificateTimestamps
    (buildCertificateChain st.peerCertificates)
  have hcert := checkCertSCTs_ok_iff env (buildCertificateChain st.peerCertificates)
  match hpc : st.peerCertificates with
  | [] => exact absurd hpc h
  | c :: rest =>
    rw [hpc] at htls hcert
    simp only [checkConnectionState, hpc, buildCertificateChain] at *
    cases ht : checkTLSSCTs env st.signedCertificateTimestamps (c :: rest) with
    | ok u =>
      cases u
      rw [ht] at htls
      exact iff_of_true rfl (Or.inl (htls.mp rfl))
    | error e =>
      rw [ht] at htls
      have hnl : ¬(st.signedCertificateTimestamps ≠ [] ∧
          ∃ L, MerkleTreeLeafFromChain (c :: rest) 0 = .ok L ∧
            ∃ s ∈ st.signedCertificateTimestamps, checkOneSCT env s L = .ok ()) := by
        intro hp
        exact absurd (htls.mpr hp) (by simp)
      cases hcc : checkCertSCTs env (c :: rest) with
      | none =>
        have hsome := checkCertSCTs_isSome env (c :: rest) (by simp)
        rw [hcc] at hsome
        simp at hsome
      | some r =>
        rw [hcc] at hcert
        cases r with
        | ok u =>
          cases u
          exact iff_of_true rfl (Or.inr (hcert.mp rfl))
        | error e2 =>
          refine iff_of_false (by simp) ?_
          rintro (hp | hp)
          · exact hnl hp
          · exact absurd (hcert.mpr hp) (by simp)

/-- Witness for C2 amended: a handshake SCT naming an unknown log fails,
yet the embedded source's SCT succeeds and so the whole check succeeds. -/
theorem checkConnectionState_success_iff_witness :
    checkOneSCT envW2 [9] (xLeaf certWithSCT 0) = .error .unknownLog
    ∧ checkConnectionState envW2 (some stW2) = some (.ok ()) :=
  ⟨rfl,
   (checkConnectionState_success_iff envW2 stW2 (by simp [stW2])).mpr
     (Or.inr ⟨certWithSCT, issuerCert, [], rfl, by simp [certWithSCT], _, rfl,
       [5], by simp [certWithSCT], rfl⟩)⟩

/-! ## C3: source order and the length-1 chain in the embedded path -/

/-- Counterexample to C3 as stated: a chain of length 1 whose leaf embeds
no SCTs makes the embedded source fail with the no-SCTs-in-leaf-certificate
reason — the empty-list check precedes the issuer check (sct.go:120-128) —
not with the no-issuer ChainBuildFailure the claim requires of every
length-1 chain. -/
theorem embedded_len1_counterexample :
    (buildCertificateChain [certNoSCTs]).length = 1
    ∧ checkCertSCTs env0 (buildCertificateChain [certNoSCTs]) =
        some (.error .noSCTsInLeafCert)
    ∧ Reason.noSCTsInLeafCert ≠ Reason.noIssuerInChain :=
  ⟨rfl, rfl, by decide⟩

/-- C3 amended: the sources are tried in the fixed order handshake-SCTs
then embedded-SCTs (the OCSP block is commented out and never consulted);
for every chain of length 1 whose leaf embeds at least one SCT, the
embedded source fails with the no-issuer reason, and the whole check — when
the handshake source does not succeed — returns that recorded reason
rather than falling through to any further source. -/
theorem embedded_source_len1 (env : Env) (c : Cert) (st : ConnectionState) :
    (c.sctList ≠ [] → checkCertSCTs env [c] = some (.error .noIssuerInChain))
    ∧ (st.peerCertificates = [c] → c.sctList ≠ [] →
        checkConnectionState env (some st) = some (.ok ())
        ∨ checkConnectionState env (some st) = some (.error .noIssuerInChain)) := by
  have hone : c.sctList ≠ [] → checkCertSCTs env [c] = some (.error .noIssuerInChain) := by
    intro hne
    cases hs : c.sctList with
    | nil => exact absurd hs hne
    | cons a l => simp [checkCertSCTs, hs]
  refine ⟨hone, fun hpc hne => ?_⟩
  simp only [checkConnectionState, hpc, buildCertificateChain]
  cases ht : checkTLSSCTs env st.signedCertificateTimestamps [c] with
  | ok u => exact Or.inl rfl
  | error e =>
    rw [hone hne]
    exact Or.inr rfl

/-- Witness for C3 amended at a concrete one-certificate chain. -/
theorem embedded_source_len1_witness :
    checkCertSCTs env0 [certWithSCT] = some (.error .noIssuerInChain)
    ∧ (checkConnectionState env0 (some stC3) = some (.ok ())
       ∨ checkConnectionState env0 (some stC3) = some (.error .noIssuerInChain)) :=
  ⟨(embedded_source_len1 env0 certWithSCT stC3).1 (by simp [certWithSCT]),
   (embedded_source_len1 env0 certWithSCT stC3).2 rfl (by simp [certWithSCT])⟩

/-! ## C4: which failure reason is recorded and reported -/

/-- Counterexample to C4 as stated: the handshake source's two SCTs fail
with different reasons (`malformedSCT`, then `unknownLog` last), yet the
reason recorded for the source is the fixed generic `noValidSCT` — the
per-SCT failure reasons are discarded inside the loop (sct.go:106-115) —
not the last per-SCT failure reason. -/
theorem source_reason_counterexample :
    MerkleTreeLeafFromChain [certNoSCTs] 0 = .ok LC4
    ∧ checkOneSCT envC4 [1] LC4 = .error .malformedSCT
    ∧ checkOneSCT envC4 [2] LC4 = .error .unknownLog
    ∧ checkTLSSCTs envC4 [[1], [2]] [certNoSCTs] = .error .noValidSCT
    ∧ Reason.noValidSCT ≠ Reason.unknownLog :=
  ⟨rfl, rfl, rfl, rfl, by decide⟩

/-- C4 amended: when every SCT of a source fails, the source records the
fixed generic no-valid-SCT reason (the individual SCT failure reasons are
discarded); when the whole check fails, the reason returned to the caller
is the last recorded reason across the sources in evaluation order, i.e.
the embedded source's reason whenever both consulted sources fail. -/
theorem last_reason_reporting (env : Env) (scts : List SerializedSCT)
    (chain : List Cert) (L : MerkleTreeLeaf) (st : ConnectionState)
    (e1 e2 : Reason) :
    (scts ≠ [] → MerkleTreeLeafFromChain chain 0 = .ok L →
      firstValidSCT env L scts = false →
      checkTLSSCTs env scts chain = .error .noValidSCT)
    ∧ (st.peerCertificates ≠ [] →
        checkTLSSCTs env st.signedCertificateTimestamps
          (buildCertificateChain st.peerCertificates) = .error e1 →
        checkCertSCTs env (buildCertificateChain st.peerCertificates) =
          some (.error e2) →
        checkConnectionState env (some st) = some (.error e2)) := by
  constructor
  · intro hne hb hf
    cases scts with
    | nil => exact absurd rfl hne
    | cons a rest => simp [checkTLSSCTs, hb, hf]
  · intro hne ht hcc
    match hpc : st.peerCertificates with
    | [] => exact absurd hpc hne
    | c :: rest =>
      rw [hpc] at ht hcc
      simp only [checkConnectionState, hpc, buildCertificateChain] at *
      rw [ht, hcc]

/-- Witness for C4 amended: both sources fail — handshake with the generic
no-valid-SCT reason, embedded with no-SCTs-in-leaf-certificate — and the
whole check reports the embedded (last) source's reason. -/
theorem last_reason_reporting_witness :
    checkTLSSCTs envC4 [[1], [2]] [certNoSCTs] = .error .noValidSCT
    ∧ checkConnectionState envC4 (some stC4) = some (.error .noSCTsInLeafCert) :=
  ⟨(last_reason_reporting envC4 [[1], [2]] [certNoSCTs] LC4 stC4
      Reason.noValidSCT Reason.noSCTsInLeafCert).1 (by simp) rfl rfl,
   (last_reason_reporting envC4 [[1], [2]] [certNoSCTs] LC4 stC4
      Reason.noValidSCT Reason.noSCTsInLeafCert).2 (by simp [stC4]) rfl rfl⟩

/-! ## C7: the reason reported when every source is empty -/

/-- Counterexample to C7 as stated: with every evidence source empty the
check fails with the embedded source's "no SCTs in leaf certificate"
reason, not with the global "no Signed Certificate Timestamps found"
(NoEvidenceFound) reason — the initial `lastError` is always overwritten
(sct.go:61-92). -/
theorem all_sources_empty_counterexample :
    stC7.signedCertificateTimestamps = [] ∧ certNoSCTs.sctList = []
    ∧ checkConnectionState env0 (some stC7) = some (.error .noSCTsInLeafCert)
    ∧ Reason.noSCTsInLeafCert ≠ Reason.noSCTsFound :=
  ⟨rfl, rfl, rfl, by decide⟩

/-- C7 amended: when the handshake SCT list is empty and the leaf
certificate embeds no SCTs (so every consulted source is empty), the check
fails with the embedded source's no-SCTs-in-leaf-certificate reason, the
last recorded empty-source reason. -/
theorem all_sources_empty_reason (env : Env) (c : Cert) (rest : List Cert)
    (st : ConnectionState)
    (h1 : st.peerCertificates = c :: rest)
    (h2 : st.signedCertificateTimestamps = [])
    (h3 : c.sctList = []) :
    checkConnectionState env (some st) = some (.error .noSCTsInLeafCert) := by
  simp [checkConnectionState, h1, h2, h3, checkTLSSCTs, checkCertSCTs,
    buildCertificateChain]

/-- Witness for C7 amended at the all-empty concrete state. -/
theorem all_sources_empty_reason_witness :
    checkConnectionState env0 (some stC7) = some (.error .noSCTsInLeafCert) :=
  all_sources_empty_reason env0 certNoSCTs [] stC7 rfl rfl rfl

/-! ## C8: the boolean-only variants versus the reason-carrying logic -/

/-- Counterexample to C8 as stated: the chain's leaf embeds no SCTs, the
given single SCT passes the per-source logic against the chain's
pre-certificate leaf (the leaf builds and `checkOneSCT` accepts), yet
`VerifyCertSCTs` returns `false` — it additionally requires the leaf's own
embedded SCT list to be non-empty (sct.go:221-224), a condition absent from
the reason-carrying logic applied to the given SCT. -/
theorem cert_variant_counterexample :
    MerkleTreeLeafForEmbeddedSCT [certNoSCTs, issuerCert] 0 =
      .ok (embLeaf certNoSCTs issuerCert 0)
    ∧ checkOneSCT envAllOk [5] (embLeaf certNoSCTs issuerCert 0) = .ok ()
    ∧ VerifyCertSCTs envAllOk [5] [certNoSCTs, issuerCert] = some false :=
  ⟨rfl, rfl, rfl⟩

/-- C8 amended: the TLS and OCSP boolean variants return `true` iff the
reason-carrying per-source logic on the singleton list of the given SCT
succeeds; the cert variant returns `false` on any chain without an issuer
and on any chain whose leaf embeds no SCTs (regardless of the given SCT),
and otherwise returns `true` iff the given SCT passes `checkOneSCT`
against the chain's pre-certificate leaf. -/
theorem boolean_variants_equiv (env : Env) (s : SerializedSCT)
    (chain : List Cert) (c i : Cert) (rest : List Cert) :
    (VerifyTLSSCTs env s chain = true ↔ checkTLSSCTs env [s] chain = .ok ())
    ∧ (VerifyOcspSCTs env s chain = true ↔ checkOcspSCTs env [s] chain = .ok ())
    ∧ (chain = [c] → VerifyCertSCTs env s chain = some false)
    ∧ (chain = c :: i :: rest → c.sctList = [] →
        VerifyCertSCTs env s chain = some false)
    ∧ (chain = c :: i :: rest → c.sctList ≠ [] →
        (VerifyCertSCTs env s chain = some true ↔
          ∃ L, MerkleTreeLeafForEmbeddedSCT [c, i] 0 = .ok L ∧
            checkOneSCT env s L = .ok ())) := by
  refine ⟨?_, ?_, ?_, ?_, ?_⟩
  · cases hb : MerkleTreeLeafFromChain chain 0 with
    | error e => simp [VerifyTLSSCTs, checkTLSSCTs, hb]
    | ok L =>
      cases hc : checkOneSCT env s L with
      | ok u =>
        cases u
        simp [VerifyTLSSCTs, checkTLSSCTs, hb, hc, firstValidSCT]
      | error e =>
        simp [VerifyTLSSCTs, checkTLSSCTs, hb, hc, firstValidSCT]
  · cases hb : MerkleTreeLeafFromChain chain 0 with
    | error e => simp [VerifyOcspSCTs, checkOcspSCTs, hb]
    | ok L =>
      cases hc : checkOneSCT env s L with
      | ok u =>
        cases u
        simp [VerifyOcspSCTs, checkOcspSCTs, hb, hc, firstValidSCT]
      | error e =>
        simp [VerifyOcspSCTs, checkOcspSCTs, hb, hc, firstValidSCT]
  · rintro rfl
    cases hs : c.sctList with
    | nil => simp [VerifyCertSCTs, hs]
    | cons a l => simp [VerifyCertSCTs, hs]
  · rintro rfl hs
    simp [VerifyCertSCTs, hs]
  · rintro rfl hs
    cases hsl : c.sctList with
    | nil => exact absurd hsl hs
    | cons a l =>
      have hlen : ¬((c :: i :: rest).length < 2) := by simp
      cases hc : checkOneSCT env s (embLeaf c i 0) with
      | ok u =>
        cases u
        simp only [VerifyCertSCTs, List.get?, hsl, hlen, if_false,
          MerkleTreeLeafForEmbeddedSCT, hc]
        exact iff_of_true (by simp) ⟨embLeaf c i 0, rfl, hc⟩
      | error e =>
        simp only [VerifyCertSCTs, List.get?, hsl, hlen, if_false,
          MerkleTreeLeafForEmbeddedSCT, hc]
        refine iff_of_false (by simp) ?_
        rintro ⟨L', hL', hok⟩
        obtain rfl : L' = embLeaf c i 0 := (Except.ok.inj hL').symm
        rw [hc] at hok
        exact absurd hok (by simp)

/-- Witness for C8 amended: the three variants at concrete inputs on which
each succeeds. -/
theorem boolean_variants_equiv_witness :
    VerifyTLSSCTs envAllOk [5] [certNoSCTs] = true
    ∧ VerifyOcspSCTs envAllOk [5] [certNoSCTs] = true
    ∧ VerifyCertSCTs envAllOk [5] [certWithSCT, issuerCert] = some true :=
  ⟨(boolean_variants_equiv envAllOk [5] [certNoSCTs] certNoSCTs certNoSCTs []).1.mpr
     rfl,
   (boolean_variants_equiv envAllOk [5] [certNoSCTs] certNoSCTs certNoSCTs []).2.1.mpr
     rfl,
   ((boolean_variants_equiv envAllOk [5] [certWithSCT, issuerCert] certWithSCT
       issuerCert []).2.2.2.2 rfl (by simp [certWithSCT])).mpr
     ⟨embLeaf certWithSCT issuerCert 0, rfl, rfl⟩⟩

/-! ## C9: determinism of the Merkle-leaf builders -/

/-- C9: the two leaf builders are pure functions of their inputs — two
invocations on identical argument lists produce byte-identical serialized
leaves. -/
theorem merkle_leaf_builders_deterministic (c c' : List Cert) (t t' : Nat)
    (h1 : c = c') (h2 : t = t') :
    (MerkleTreeLeafFromChain c t).map leafBytes =
      (MerkleTreeLeafFromChain c' t').map leafBytes
    ∧ (MerkleTreeLeafForEmbeddedSCT c t).map leafBytes =
      (MerkleTreeLeafForEmbeddedSCT c' t').map leafBytes := by
  subst h1
  subst h2
  exact ⟨rfl, rfl⟩

/-- Witness for C9 at a concrete two-certificate chain. -/
theorem merkle_leaf_builders_deterministic_witness :
    (MerkleTreeLeafFromChain [certWithSCT, issuerCert] 5).map leafBytes =
      (MerkleTreeLeafFromChain [certWithSCT, issuerCert] 5).map leafBytes
    ∧ (MerkleTreeLeafForEmbeddedSCT [certWithSCT, issuerCert] 5).map leafBytes =
      (MerkleTreeLeafForEmbeddedSCT [certWithSCT, issuerCert] 5).map leafBytes :=
  merkle_leaf_builders_deterministic [certWithSCT, issuerCert]
    [certWithSCT, issuerCert] 5 5 rfl rfl

end Sct
